import Mathlib

/-
Verification of the Webcam-Plugin repository: a shallow embedding of
src/camera_identifier.py, src/webcam.py and src/webcam_plugin.py.

External collaborators (OpenCV capture primitive, udev/v4l2/system_profiler
probes, ConfigManager persistence) are modelled by explicit inputs:
a scan environment `List DeviceProbe` records, per device index, whether the
capture primitive opens there and what the hardware/probe queries return;
configuration load is an `Option (List DeviceEntry)` (`none` models the
unreadable/empty-configuration exception path); persistence saves are
recorded in a list so that the number of save calls is observable.
-/

namespace WebcamSpec

/-- Outcome of probing one device index: whether `cv2.VideoCapture(index)`
opens, the negotiated width/height/fps read back from the open capture, and
the platform hardware-inventory fields filled by
`_get_platform_camera_info` (any unavailable field is the empty string). -/
structure DeviceProbe where
  device_id : Nat
  opensOk : Bool
  width : Nat
  height : Nat
  fps : Nat
  vendor_id : String
  product_id : String
  serial_number : String
  device_path : String
  name : String
deriving DecidableEq, Repr

/-- The `info` dictionary built by `CameraIdentifier.get_camera_info`
(src/camera_identifier.py lines 28-63). The source stores `device_id` as its
decimal string and `find_camera_by_signature` re-parses it with `int`; that
round-trip is lossless, so the field is kept as `Nat` here. -/
structure CameraInfo where
  device_id : Nat
  vendor_id : String
  product_id : String
  serial_number : String
  device_path : String
  name : String
  resolution_signature : String
  unique_signature : String
deriving DecidableEq, Repr

/-- Python `name.replace(' ', '_')` for the single-character pattern used by
the source: every space character becomes an underscore. -/
def replaceSpaces (s : String) : String :=
  String.mk (s.data.map (fun c => if c = ' ' then '_' else c))

/-- Python `'_'.join(parts)`: concatenation with a single underscore between
consecutive elements, no leading or trailing separator. -/
def joinParts : List String → String
  | [] => ""
  | [p] => p
  | p :: q :: rest => p ++ "_" ++ joinParts (q :: rest)

/-- `info['resolution_signature']` (src/camera_identifier.py lines 41-48):
the string `f"{width}x{height}@{fps}"` when the transient capture open
succeeds, the empty string otherwise. -/
def resolutionSignature (d : DeviceProbe) : String :=
  if d.opensOk then
    toString d.width ++ "x" ++ toString d.height ++ "@" ++ toString d.fps
  else ""

/-- The `signature_parts` list of `get_camera_info`
(src/camera_identifier.py lines 54-60), in source order. -/
def signatureParts (d : DeviceProbe) : List String :=
  [d.vendor_id, d.product_id, d.serial_number, resolutionSignature d,
   replaceSpaces d.name]

/-- `CameraIdentifier.get_camera_info` (src/camera_identifier.py lines
18-63): fills the info dictionary from the probe results and computes
`unique_signature = '_'.join([part for part in signature_parts if part])`. -/
def get_camera_info (d : DeviceProbe) : CameraInfo :=
  { device_id := d.device_id
    vendor_id := d.vendor_id
    product_id := d.product_id
    serial_number := d.serial_number
    device_path := d.device_path
    name := d.name
    resolution_signature := resolutionSignature d
    unique_signature := joinParts ((signatureParts d).filter (fun p => p ≠ "")) }

/-- Python dict assignment `cameras[key] = info` on an association list:
replace in place when the key is present, append otherwise. -/
def dictInsert {α : Type} (l : List (String × α)) (k : String) (v : α) :
    List (String × α) :=
  if l.any (fun q => q.1 = k) then
    l.map (fun q => if q.1 = k then (k, v) else q)
  else l ++ [(k, v)]

/-- One iteration of the scan loop of `CameraIdentifier.get_all_cameras`
(src/camera_identifier.py lines 89-97): if the capture primitive opens at
the device, build its info and record it under its unique signature, falling
back to the synthetic key `device_<id>` when the signature is empty. -/
def scanStep (cams : List (String × CameraInfo)) (d : DeviceProbe) :
    List (String × CameraInfo) :=
  if d.opensOk then
    let info := get_camera_info d
    let key := if info.unique_signature ≠ "" then info.unique_signature
               else "device_" ++ toString d.device_id
    dictInsert cams key info
  else cams

/-- `CameraIdentifier.get_all_cameras` (src/camera_identifier.py lines
75-99): scan every available device in order, starting from an empty map. -/
def get_all_cameras (env : List DeviceProbe) : List (String × CameraInfo) :=
  env.foldl scanStep []

/-- `CameraIdentifier.find_camera_by_signature` (src/camera_identifier.py
lines 101-115): re-run a full scan and return the device id of the first
scan-map entry whose key equals the target signature. -/
def find_camera_by_signature (env : List DeviceProbe) (target : String) :
    Option Nat :=
  match (get_all_cameras env).find? (fun q => q.1 = target) with
  | some q => some q.2.device_id
  | none => none

/-- Keys of an association list. -/
def keysOf {α : Type} (l : List (String × α)) : List String := l.map Prod.fst

/-- A fully described camera at device index 2. -/
def probeA : DeviceProbe :=
  { device_id := 2, opensOk := true, width := 640, height := 480, fps := 30,
    vendor_id := "046d", product_id := "085e", serial_number := "ABC123",
    device_path := "/sys/devices/usb1", name := "Logi Cam" }

/-- The same physical camera after reconnecting at device index 3. -/
def probeB : DeviceProbe :=
  { probeA with device_id := 3, device_path := "/sys/devices/usb2" }

/-- The fingerprint `probeA` and `probeB` both produce. -/
def fpF : String := "046d_085e_ABC123_640x480@30_Logi_Cam"

/-- A descriptor whose only non-empty field is `vendor_id = "046d"`. -/
def probeVendorOnly : DeviceProbe :=
  { device_id := 5, opensOk := false, width := 0, height := 0, fps := 0,
    vendor_id := "046d", product_id := "", serial_number := "",
    device_path := "", name := "" }

/-- Python's built-in `round` (banker's rounding): round half to even. -/
def pythonRound (q : ℚ) : ℤ :=
  if q - q.floor < 1/2 then q.floor
  else if 1/2 < q - q.floor then q.floor + 1
  else if q.floor % 2 = 0 then q.floor else q.floor + 1

/-- The orientation normalization of `Webcam.__init__` (src/webcam.py lines
29-40): keep an input that is exactly 0, 90, 180 or 270; otherwise snap to
the nearest multiple of 90 (Python `round`, half to even) and reduce modulo
360, mapping a residue of 360 to 0. -/
def normalizeOrientation (q : ℚ) : ℚ :=
  if q = 0 ∨ q = 90 ∨ q = 180 ∨ q = 270 then q
  else if (((90 * pythonRound (q / 90)) % 360 : ℤ) : ℚ) = 360 then 0
  else (((90 * pythonRound (q / 90)) % 360 : ℤ) : ℚ)

/-- State of one `Webcam` instance (src/webcam.py). `negotiated` models the
open capture's current frame dimensions (`self.cap` plus what
`cap.get(CAP_PROP_FRAME_WIDTH/HEIGHT)` returns); it is `none` when no open
capture is held. -/
structure WebcamState where
  device_id : Nat
  raw_width : Nat
  raw_height : Nat
  buffer_size : Nat
  name : String
  orientation : ℚ
  is_opened : Bool
  negotiated : Option (Nat × Nat)
deriving DecidableEq, Repr

/-- `cv2.VideoCapture(id)` against the scan environment. -/
def envFind (env : List DeviceProbe) (id : Nat) : Option DeviceProbe :=
  env.find? (fun d => d.device_id = id)

/-- `Webcam.__init__` (src/webcam.py lines 7-42): store the raw dimensions
and the normalized orientation, then `_initialize_camera`: the open
succeeds exactly when the capture primitive opens at the index, in which
case the negotiated dimensions are read back; a failed open is caught,
leaving `is_opened` false. -/
def mkWebcam (env : List DeviceProbe) (id w h b : Nat) (nm : String)
    (ori : ℚ) : WebcamState :=
  match envFind env id with
  | some d =>
    if d.opensOk then
      { device_id := id, raw_width := w, raw_height := h, buffer_size := b,
        name := nm, orientation := normalizeOrientation ori,
        is_opened := true, negotiated := some (d.width, d.height) }
    else
      { device_id := id, raw_width := w, raw_height := h, buffer_size := b,
        name := nm, orientation := normalizeOrientation ori,
        is_opened := false, negotiated := none }
  | none =>
    { device_id := id, raw_width := w, raw_height := h, buffer_size := b,
      name := nm, orientation := normalizeOrientation ori,
      is_opened := false, negotiated := none }

/-- `Webcam.get_resolution` (src/webcam.py lines 136-153): oriented
dimensions, swapping the pair exactly when the orientation is 90 or 270;
the unrotated pair comes from the open capture when one is held and from
the stored raw dimensions otherwise. -/
def get_resolution (w : WebcamState) : Nat × Nat :=
  if w.is_opened = false ∨ w.negotiated = none then
    if w.orientation = 90 ∨ w.orientation = 270 then
      (w.raw_height, w.raw_width)
    else (w.raw_width, w.raw_height)
  else
    match w.negotiated with
    | some d =>
      if w.orientation = 90 ∨ w.orientation = 270 then (d.2, d.1)
      else (d.1, d.2)
    | none => (w.raw_width, w.raw_height)

/-- The unrotated dimensions `get_resolution` starts from: the open
capture's negotiated dimensions when available, the stored raw dimensions
otherwise. -/
def rawDims (w : WebcamState) : Nat × Nat :=
  if w.is_opened = false ∨ w.negotiated = none then
    (w.raw_width, w.raw_height)
  else
    match w.negotiated with
    | some d => d
    | none => (w.raw_width, w.raw_height)

/-- A video frame: rows of pixels. -/
def Frame : Type := List (List Nat)

instance : DecidableEq Frame := by
  unfold Frame
  infer_instance

/-- `cv2.ROTATE_90_CLOCKWISE`. -/
def rotate90cw (f : Frame) : Frame := (List.transpose f).map List.reverse

/-- `cv2.ROTATE_180`. -/
def rotate180 (f : Frame) : Frame := (f.map List.reverse).reverse

/-- `cv2.ROTATE_90_COUNTERCLOCKWISE`. -/
def rotate90ccw (f : Frame) : Frame := List.transpose (f.map List.reverse)

/-- `Webcam._apply_orientation` (src/webcam.py lines 70-83): dispatch on the
normalized orientation, identity as the fallback. -/
def apply_orientation (w : WebcamState) (f : Frame) : Frame :=
  if w.orientation = 0 then f
  else if w.orientation = 90 then rotate90cw f
  else if w.orientation = 180 then rotate180 f
  else if w.orientation = 270 then rotate90ccw f
  else f

/-- `Webcam.get_frame` (src/webcam.py lines 85-103). `readResult` models the
outcome of `self.cap.read()`: `none` for a failed read. The returned pair
carries the (unchanged) instance state to make it observable that neither
path mutates or releases the handle. -/
def get_frame (w : WebcamState) (readResult : Option Frame) :
    Option Frame × WebcamState :=
  if w.is_opened = false ∨ w.negotiated = none then (none, w)
  else
    match readResult with
    | none => (none, w)
    | some f => (some (apply_orientation w f), w)

/-- A device at index 0 that opens successfully. -/
def probeOpen : DeviceProbe :=
  { device_id := 0, opensOk := true, width := 640, height := 480, fps := 30,
    vendor_id := "", product_id := "", serial_number := "",
    device_path := "", name := "" }

/-- An open webcam handle used by the C8 witness. -/
def wOpen : WebcamState := mkWebcam [probeOpen] 0 640 480 1 "cam" 0

/-- One persisted device entry of the `webcam_plugin.devices`
configuration. `hardware_signature := none` models the key being absent. -/
structure DeviceEntry where
  name : String
  device_id : Nat
  width : Nat
  height : Nat
  buffer_size : Nat
  hardware_signature : Option String
deriving DecidableEq, Repr

/-- `WebcamPlugin._has_hardware_signature` (src/webcam_plugin.py lines
68-70): the key exists and its value is truthy (non-empty). -/
def has_hardware_signature (e : DeviceEntry) : Bool :=
  match e.hardware_signature with
  | some s => s ≠ ""
  | none => false

/-- The probe data `get_camera_info(device_id)` sees for a given index: the
environment's record when the index is listed, otherwise a device that
fails to open and yields no metadata. -/
def probeFor (env : List DeviceProbe) (id : Nat) : DeviceProbe :=
  (envFind env id).getD
    { device_id := id, opensOk := false, width := 0, height := 0, fps := 0,
      vendor_id := "", product_id := "", serial_number := "",
      device_path := "", name := "" }

/-- `WebcamPlugin._load_camera_by_signature` (src/webcam_plugin.py lines
72-98): resolve the stored signature against a fresh scan; not found leaves
the entry untouched and creates no camera; found updates `device_id` when
it drifted (marking the entry changed) and opens a camera at the resolved
index. Returns (updated entry, changed flag, camera created). -/
def load_camera_by_signature (env : List DeviceProbe) (e : DeviceEntry) :
    DeviceEntry × Bool × Option WebcamState :=
  match find_camera_by_signature env (e.hardware_signature.getD "") with
  | none => (e, false, none)
  | some actual =>
    let cam := mkWebcam env actual e.width e.height e.buffer_size e.name 0
    if actual = e.device_id then (e, false, some cam)
    else ({ e with device_id := actual }, true, some cam)

/-- `WebcamPlugin._generate_camera_signature` (src/webcam_plugin.py lines
100-134): open a camera at the configured index, derive the signature from
`get_camera_info` at that index, write it into the entry and report the
config as changed. Returns (updated entry, changed flag, camera,
signature). -/
def generate_camera_signature (env : List DeviceProbe) (e : DeviceEntry) :
    DeviceEntry × Bool × WebcamState × String :=
  let cam := mkWebcam env e.device_id e.width e.height e.buffer_size e.name 0
  let info := get_camera_info (probeFor env e.device_id)
  ({ e with hardware_signature := some info.unique_signature }, true, cam,
    info.unique_signature)

/-- In-flight state of one reconciliation pass: the rebuilt entry list, the
dirty flag, and the `self.cameras` / `self.camera_signatures`
dictionaries. -/
structure ReconState where
  updated_devices : List DeviceEntry
  config_updated : Bool
  cameras : List (String × WebcamState)
  camera_signatures : List (String × String)
deriving DecidableEq, Repr

/-- The body of the `for i, device in enumerate(devices_config)` loop of
`_load_cameras_from_config` (src/webcam_plugin.py lines 42-53). -/
def processEntry (env : List DeviceProbe) (st : ReconState)
    (e : DeviceEntry) : ReconState :=
  if has_hardware_signature e = true then
    let r := load_camera_by_signature env e
    match r.2.2 with
    | none =>
      { st with updated_devices := st.updated_devices ++ [r.1],
                config_updated := st.config_updated || r.2.1 }
    | some cam =>
      { updated_devices := st.updated_devices ++ [r.1],
        config_updated := st.config_updated || r.2.1,
        cameras := dictInsert st.cameras e.name cam,
        camera_signatures :=
          dictInsert st.camera_signatures e.name
            (e.hardware_signature.getD "") }
  else
    let g := generate_camera_signature env e
    { updated_devices := st.updated_devices ++ [g.1],
      config_updated := st.config_updated || true,
      cameras := dictInsert st.cameras e.name g.2.2.1,
      camera_signatures := dictInsert st.camera_signatures e.name g.2.2.2 }

/-- Observable outcome of one reconciliation pass: the final camera and
signature dictionaries, and the list of `save_config` calls (each carrying
the persisted entry set). -/
structure PluginState where
  cameras : List (String × WebcamState)
  camera_signatures : List (String × String)
  saves : List (List DeviceEntry)
deriving DecidableEq, Repr

/-- `WebcamPlugin._load_cameras_from_config` (src/webcam_plugin.py lines
24-66). `config = none` models the exception path (configuration
unreadable or empty, so that `config.webcam_plugin` raises before any
entry is processed): the handler installs one fallback camera under the
key "default", built with the `Webcam` defaults (index 0, 640 by 480,
buffer 1, name "default_camera"). Otherwise every entry is processed in
order and `save_config` is called exactly once if any entry changed. -/
def load_cameras_from_config (env : List DeviceProbe)
    (config : Option (List DeviceEntry)) : PluginState :=
  match config with
  | none =>
    { cameras := [("default", mkWebcam env 0 640 480 1 "default_camera" 0)],
      camera_signatures := [], saves := [] }
  | some devices =>
    let r := devices.foldl (processEntry env)
      { updated_devices := [], config_updated := false, cameras := [],
        camera_signatures := [] }
    { cameras := r.cameras, camera_signatures := r.camera_signatures,
      saves := if r.config_updated then [r.updated_devices] else [] }

/-- The entry `processEntry` appends for a given input entry. -/
def updateEntry (env : List DeviceProbe) (e : DeviceEntry) : DeviceEntry :=
  if has_hardware_signature e = true then (load_camera_by_signature env e).1
  else (generate_camera_signature env e).1

/-- Whether processing the entry sets the dirty flag. -/
def entryChanged (env : List DeviceProbe) (e : DeviceEntry) : Bool :=
  if has_hardware_signature e = true then (load_camera_by_signature env e).2.1
  else true

/-- An entry whose stored fingerprint already resolves to its stored
index. -/
def entryClean : DeviceEntry :=
  { name := "cam2", device_id := 2, width := 640, height := 480,
    buffer_size := 1, hardware_signature := some fpF }

/-- An entry with no stored fingerprint. -/
def entryNoSig : DeviceEntry :=
  { name := "cam0", device_id := 0, width := 640, height := 480,
    buffer_size := 1, hardware_signature := none }

/-- An entry whose stored fingerprint matches no live device. -/
def entryGhost : DeviceEntry :=
  { name := "ghost", device_id := 4, width := 640, height := 480,
    buffer_size := 1, hardware_signature := some "nope" }

/-- The empty in-flight reconciliation state. -/
def stEmpty : ReconState :=
  { updated_devices := [], config_updated := false, cameras := [],
    camera_signatures := [] }

/-- The fingerprint `_generate_camera_signature` derives for a configured
device index: `get_camera_info` evaluated at that index's probe. -/
def derivedSignature (env : List DeviceProbe) (id : Nat) : String :=
  (get_camera_info (probeFor env id)).unique_signature

lemma keysOf_dictInsert {α : Type} (l : List (String × α)) (k : String)
    (v : α) :
    keysOf (dictInsert l k v) =
      if l.any (fun q => q.1 = k) then keysOf l else keysOf l ++ [k] := by
  unfold dictInsert keysOf
  split_ifs with h
  · rw [List.map_map]
    apply List.map_congr_left
    intro q _
    by_cases hk : q.1 = k
    · simp [hk]
    · simp [hk]
  · simp

lemma nodup_keysOf_dictInsert {α : Type} (l : List (String × α)) (k : String)
    (v : α) (h : (keysOf l).Nodup) : (keysOf (dictInsert l k v)).Nodup := by
  rw [keysOf_dictInsert]
  split_ifs with hm
  · exact h
  · have hk : k ∉ keysOf l := by
      intro hmem
      rcases List.mem_map.mp hmem with ⟨q, hq, hfst⟩
      exact hm (List.any_eq_true.mpr ⟨q, hq, by simp [hfst]⟩)
    refine List.Nodup.append h (List.nodup_singleton k) ?_
    intro a ha hb
    rw [List.mem_singleton] at hb
    subst hb
    exact hk ha

lemma nodup_keysOf_scanStep (cams : List (String × CameraInfo))
    (d : DeviceProbe) (h : (keysOf cams).Nodup) :
    (keysOf (scanStep cams d)).Nodup := by
  unfold scanStep
  split_ifs with ho
  · exact nodup_keysOf_dictInsert _ _ _ h
  · exact h

lemma nodup_keysOf_foldl_scanStep (es : List DeviceProbe) :
    ∀ acc : List (String × CameraInfo), (keysOf acc).Nodup →
      (keysOf (es.foldl scanStep acc)).Nodup := by
  induction es with
  | nil => intro acc h; exact h
  | cons d rest ih =>
    intro acc h
    rw [List.foldl_cons]
    exact ih _ (nodup_keysOf_scanStep _ _ h)

lemma get_all_cameras_keys_nodup (env : List DeviceProbe) :
    (keysOf (get_all_cameras env)).Nodup :=
  nodup_keysOf_foldl_scanStep env [] (by simp [keysOf])

lemma find?_key_eq_of_mem {α : Type} :
    ∀ l : List (String × α), (keysOf l).Nodup →
      ∀ (F : String) (info : α), (F, info) ∈ l →
        l.find? (fun q => q.1 = F) = some (F, info) := by
  intro l
  induction l with
  | nil => intro _ F info h; exact absurd h (List.not_mem_nil _)
  | cons a rest ih =>
    intro hnd F info hmem
    rw [show keysOf (a :: rest) = a.1 :: keysOf rest from rfl,
      List.nodup_cons] at hnd
    by_cases ha : a.1 = F
    · have hqa : a = (F, info) := by
        rcases List.mem_cons.mp hmem with h | h
        · exact h.symm
        · exfalso
          have hFk : F ∈ keysOf rest := List.mem_map.mpr ⟨(F, info), h, rfl⟩
          rw [ha] at hnd
          exact hnd.1 hFk
      subst hqa
      exact List.find?_cons_of_pos _ (by simp)
    · rcases List.mem_cons.mp hmem with h | h
      · exfalso; rw [← h] at ha; exact ha rfl
      · rw [List.find?_cons_of_neg _ (by simpa using ha)]
        exact ih hnd.2 F info h

lemma ratFloor_eq_floor (q : ℚ) : q.floor = ⌊q⌋ := by
  rw [Rat.floor_def']
  exact Rat.floor_def.symm

lemma pythonRound_intCast (k : ℤ) : pythonRound (k : ℚ) = k := by
  unfold pythonRound
  rw [ratFloor_eq_floor, Int.floor_intCast]
  norm_num

lemma abs_sub_pythonRound (q : ℚ) : |q - (pythonRound q : ℚ)| ≤ 1/2 := by
  have h0 : (⌊q⌋ : ℚ) ≤ q := Int.floor_le q
  have h1 : q < ⌊q⌋ + 1 := Int.lt_floor_add_one q
  unfold pythonRound
  rw [ratFloor_eq_floor]
  split_ifs with hc1 hc2 hc3 <;> push_cast <;> rw [abs_le] <;>
    constructor <;> linarith

lemma normalizeOrientation_mem (q : ℚ) :
    normalizeOrientation q = 0 ∨ normalizeOrientation q = 90 ∨
      normalizeOrientation q = 180 ∨ normalizeOrientation q = 270 := by
  unfold normalizeOrientation
  split_ifs with h1 h2
  · exact h1
  · left; rfl
  · have h4 : (90 * pythonRound (q / 90)) % 360 = 0 ∨
        (90 * pythonRound (q / 90)) % 360 = 90 ∨
        (90 * pythonRound (q / 90)) % 360 = 180 ∨
        (90 * pythonRound (q / 90)) % 360 = 270 := by omega
    rcases h4 with h | h | h | h
    · left; rw [h]; norm_num
    · right; left; rw [h]; norm_num
    · right; right; left; rw [h]; norm_num
    · right; right; right; rw [h]; norm_num

/-- On an exact integer multiple of 90 the normalization is plain reduction
modulo 360. -/
lemma normalizeOrientation_intMul90 (k : ℤ) :
    normalizeOrientation ((90 * k : ℤ) : ℚ) = (((90 * k) % 360 : ℤ) : ℚ) := by
  unfold normalizeOrientation
  have hdiv : ((90 * k : ℤ) : ℚ) / 90 = (k : ℚ) := by
    push_cast
    rw [mul_comm, mul_div_assoc]
    norm_num
  rw [hdiv, pythonRound_intCast]
  split_ifs with h1 h2
  · have hk : (90 * k : ℤ) = 0 ∨ (90 * k : ℤ) = 90 ∨ (90 * k : ℤ) = 180 ∨
        (90 * k : ℤ) = 270 := by
      rcases h1 with h | h | h | h
      · left; exact_mod_cast h
      · right; left; exact_mod_cast h
      · right; right; left; exact_mod_cast h
      · right; right; right; exact_mod_cast h
    have hmod : (90 * k) % 360 = 90 * k := by omega
    rw [hmod]
  · exfalso
    have h360 : (90 * k) % 360 = 360 := by exact_mod_cast h2
    omega
  · rfl

lemma normalizeOrientation_round (q : ℚ)
    (h : ¬(q = 0 ∨ q = 90 ∨ q = 180 ∨ q = 270)) :
    normalizeOrientation q = (((90 * pythonRound (q / 90)) % 360 : ℤ) : ℚ)
    ∧ |q - ((90 * pythonRound (q / 90) : ℤ) : ℚ)| ≤ 45 := by
  constructor
  · unfold normalizeOrientation
    rw [if_neg h]
    split_ifs with h2
    · exfalso
      have h360 : (90 * pythonRound (q / 90)) % 360 = 360 := by
        exact_mod_cast h2
      omega
    · rfl
  · have habs := abs_sub_pythonRound (q / 90)
    have hrw : q - ((90 * pythonRound (q / 90) : ℤ) : ℚ) =
        90 * (q / 90 - (pythonRound (q / 90) : ℚ)) := by
      push_cast
      ring
    rw [hrw, abs_mul]
    rw [show |(90 : ℚ)| = 90 by norm_num]
    linarith

lemma mkWebcam_orientation (env : List DeviceProbe) (id w h b : Nat)
    (nm : String) (ori : ℚ) :
    (mkWebcam env id w h b nm ori).orientation = normalizeOrientation ori := by
  unfold mkWebcam
  cases envFind env id with
  | none => rfl
  | some d => cases hd : d.opensOk <;> simp [hd]

lemma mkWebcam_device_id (env : List DeviceProbe) (id w h b : Nat)
    (nm : String) (ori : ℚ) :
    (mkWebcam env id w h b nm ori).device_id = id := by
  unfold mkWebcam
  cases envFind env id with
  | none => rfl
  | some d => cases hd : d.opensOk <;> simp [hd]

lemma normalizeOrientation_450 : normalizeOrientation 450 = 90 := by
  unfold normalizeOrientation
  rw [if_neg (by norm_num),
    show (450 : ℚ) / 90 = ((5 : ℤ) : ℚ) by norm_num, pythonRound_intCast,
    show (90 * (5 : ℤ)) % 360 = 90 from by decide]
  norm_num

lemma processEntry_updated_devices (env : List DeviceProbe)
    (st : ReconState) (e : DeviceEntry) :
    (processEntry env st e).updated_devices =
      st.updated_devices ++ [updateEntry env e] := by
  unfold processEntry updateEntry
  by_cases hs : has_hardware_signature e = true
  · rw [if_pos hs, if_pos hs]
    dsimp only
    cases (load_camera_by_signature env e).2.2 with
    | none => rfl
    | some cam => rfl
  · rw [if_neg hs, if_neg hs]

lemma processEntry_config_updated (env : List DeviceProbe)
    (st : ReconState) (e : DeviceEntry) :
    (processEntry env st e).config_updated =
      (st.config_updated || entryChanged env e) := by
  unfold processEntry entryChanged
  by_cases hs : has_hardware_signature e = true
  · rw [if_pos hs, if_pos hs]
    dsimp only
    cases (load_camera_by_signature env e).2.2 with
    | none => rfl
    | some cam => rfl
  · rw [if_neg hs, if_neg hs]

lemma foldl_processEntry_updated_devices (env : List DeviceProbe)
    (devices : List DeviceEntry) :
    ∀ st : ReconState,
      (devices.foldl (processEntry env) st).updated_devices =
        st.updated_devices ++ devices.map (updateEntry env) := by
  induction devices with
  | nil => intro st; simp
  | cons e rest ih =>
    intro st
    rw [List.foldl_cons, ih, processEntry_updated_devices, List.map_cons,
      List.append_assoc]
    rfl

lemma foldl_processEntry_config_updated (env : List DeviceProbe)
    (devices : List DeviceEntry) :
    ∀ st : ReconState,
      (devices.foldl (processEntry env) st).config_updated =
        (st.config_updated || devices.any (entryChanged env)) := by
  induction devices with
  | nil => intro st; simp
  | cons e rest ih =>
    intro st
    rw [List.foldl_cons, ih, processEntry_config_updated, List.any_cons,
      Bool.or_assoc]

lemma joinParts_ne_empty :
    ∀ l : List String, (∀ p ∈ l, p ≠ "") → l ≠ [] → joinParts l ≠ ""
  | [], _, h2 => absurd rfl h2
  | [a], h1, _ => by simpa [joinParts] using h1 a (by simp)
  | a :: b :: rest, h1, _ => by
    intro hc
    have hlen := congrArg String.length hc
    rw [show joinParts (a :: b :: rest) = a ++ "_" ++ joinParts (b :: rest)
        from rfl] at hlen
    simp only [String.length_append] at hlen
    have hu : ("_" : String).length = 1 := rfl
    have h0 : ("" : String).length = 0 := rfl
    omega

lemma resolutionSignature_ne_empty (d : DeviceProbe) (h : d.opensOk = true) :
    resolutionSignature d ≠ "" := by
  unfold resolutionSignature
  rw [if_pos h]
  intro hc
  have hlen := congrArg String.length hc
  simp only [String.length_append] at hlen
  have hx : ("x" : String).length = 1 := rfl
  have h0 : ("" : String).length = 0 := rfl
  omega

lemma unique_signature_ne_empty_of_opensOk (d : DeviceProbe)
    (h : d.opensOk = true) : (get_camera_info d).unique_signature ≠ "" := by
  have hres := resolutionSignature_ne_empty d h
  have hmem : resolutionSignature d ∈
      (signatureParts d).filter (fun p => p ≠ "") := by
    rw [List.mem_filter]
    refine ⟨?_, by simp [hres]⟩
    unfold signatureParts
    simp
  exact joinParts_ne_empty _
    (fun p hp => by simpa using (List.mem_filter.mp hp).2)
    (List.ne_nil_of_mem hmem)

/-- C1: `find_camera_by_signature` re-runs a fresh full scan and returns the
device index whose scan-map key equals the requested fingerprint, or none
when no scanned device's key equals it; concretely, a device bearing
fingerprint `fpF` is resolved to index 2 when it sits at index 2 and to
index 3 after it moves to index 3. -/
theorem resolve_returns_matching_index (env : List DeviceProbe) (F : String) :
    (∀ n : Nat, find_camera_by_signature env F = some n ↔
        ∃ info : CameraInfo, (F, info) ∈ get_all_cameras env ∧
          info.device_id = n)
    ∧ (find_camera_by_signature env F = none ↔
        ∀ info : CameraInfo, (F, info) ∉ get_all_cameras env)
    ∧ find_camera_by_signature [probeA] fpF = some 2
    ∧ find_camera_by_signature [probeB] fpF = some 3 := by
  refine ⟨?_, ?_, by decide, by decide⟩
  · intro n
    constructor
    · intro h
      unfold find_camera_by_signature at h
      cases hf : (get_all_cameras env).find? (fun q => q.1 = F) with
      | none => rw [hf] at h; exact absurd h (by simp)
      | some q =>
        rw [hf] at h
        have hq1 : q.1 = F := by simpa using List.find?_some hf
        refine ⟨q.2, ?_, ?_⟩
        · rw [← hq1]
          simpa using List.mem_of_find?_eq_some hf
        · simpa using h
    · rintro ⟨info, hmem, hid⟩
      unfold find_camera_by_signature
      rw [find?_key_eq_of_mem _ (get_all_cameras_keys_nodup env) F info hmem]
      simp [hid]
  · unfold find_camera_by_signature
    cases hf : (get_all_cameras env).find? (fun q => q.1 = F) with
    | none =>
      simp only []
      constructor
      · intro _ info hmem
        have := List.find?_eq_none.mp hf _ hmem
        simp at this
      · intro _; trivial
    | some q =>
      simp only []
      constructor
      · intro h; exact absurd h (by simp)
      · intro hall
        exfalso
        have hq1 : q.1 = F := by simpa using List.find?_some hf
        refine hall q.2 ?_
        rw [← hq1]
        simpa using List.mem_of_find?_eq_some hf

/-- Witness for C1: the drift scenario evaluated at the concrete inventory. -/
theorem resolve_returns_matching_index_witness :
    find_camera_by_signature [probeA] fpF = some 2 ∧
      find_camera_by_signature [probeB] fpF = some 3 :=
  ⟨(resolve_returns_matching_index [probeA] fpF).2.2.1,
   (resolve_returns_matching_index [probeB] fpF).2.2.2⟩

/-- C2: the built fingerprint is the underscore-separated concatenation of
exactly the non-empty values among vendor id, product id, serial number,
resolution signature and display name (spaces replaced by underscores), in
that order, empty fields omitted; a descriptor whose only non-empty field is
`vendor_id` yields exactly that vendor id, with no separators at all. -/
theorem fingerprint_field_omission :
    (∀ d : DeviceProbe, (get_camera_info d).unique_signature =
        joinParts ((signatureParts d).filter (fun p => p ≠ "")))
    ∧ (∀ d : DeviceProbe, d.opensOk = false → d.product_id = "" →
        d.serial_number = "" → d.name = "" →
        (get_camera_info d).unique_signature = d.vendor_id)
    ∧ (get_camera_info probeVendorOnly).unique_signature = "046d" := by
  refine ⟨fun d => rfl, fun d h1 h2 h3 h4 => ?_, by decide⟩
  have hrep : replaceSpaces "" = "" := rfl
  unfold get_camera_info signatureParts resolutionSignature
  rw [h1, h2, h3, h4]
  simp only [if_neg (Bool.false_ne_true), hrep]
  by_cases hv : d.vendor_id = ""
  · simp [hv, joinParts]
  · simp [hv, joinParts]

/-- Witness for C2: the single-field clause evaluated at the concrete
vendor-only descriptor. -/
theorem fingerprint_field_omission_witness :
    (get_camera_info probeVendorOnly).unique_signature =
      probeVendorOnly.vendor_id :=
  fingerprint_field_omission.2.1 probeVendorOnly rfl rfl rfl rfl

/-- C10: fingerprint building is deterministic — it depends only on the
descriptor's signature-relevant field values (open outcome, probed
width/height/fps, vendor id, product id, serial number, display name), so
two descriptors agreeing on those fields produce identical strings even if
they differ elsewhere (device index, device path). -/
theorem fingerprint_deterministic (d1 d2 : DeviceProbe)
    (h1 : d1.opensOk = d2.opensOk) (h2 : d1.width = d2.width)
    (h3 : d1.height = d2.height) (h4 : d1.fps = d2.fps)
    (h5 : d1.vendor_id = d2.vendor_id) (h6 : d1.product_id = d2.product_id)
    (h7 : d1.serial_number = d2.serial_number) (h8 : d1.name = d2.name) :
    (get_camera_info d1).unique_signature =
      (get_camera_info d2).unique_signature := by
  unfold get_camera_info signatureParts resolutionSignature
  rw [h1, h2, h3, h4, h5, h6, h7, h8]

/-- Witness for C10: the same camera seen at two different indices and
device paths gets the same fingerprint. -/
theorem fingerprint_deterministic_witness :
    (get_camera_info probeA).unique_signature =
      (get_camera_info probeB).unique_signature :=
  fingerprint_deterministic probeA probeB rfl rfl rfl rfl rfl rfl rfl rfl

/-- C6: every numeric orientation handed to `Webcam` construction is stored
as one of 0, 90, 180 or 270; a value outside that set is rounded to the
nearest multiple of 90 (within 45 of the input) and reduced modulo 360;
450 normalizes to 90 and any multiple of 90 congruent to minus 90 modulo
360 normalizes to 270. -/
theorem mkWebcam_orientation_normalized (env : List DeviceProbe)
    (id w h b : Nat) (nm : String) :
    (∀ q : ℚ, (mkWebcam env id w h b nm q).orientation = 0 ∨
        (mkWebcam env id w h b nm q).orientation = 90 ∨
        (mkWebcam env id w h b nm q).orientation = 180 ∨
        (mkWebcam env id w h b nm q).orientation = 270)
    ∧ (mkWebcam env id w h b nm 450).orientation = 90
    ∧ (∀ k : ℤ, (90 * k) % 360 = 270 →
        (mkWebcam env id w h b nm ((90 * k : ℤ) : ℚ)).orientation = 270)
    ∧ (∀ q : ℚ, ¬(q = 0 ∨ q = 90 ∨ q = 180 ∨ q = 270) →
        (mkWebcam env id w h b nm q).orientation =
            (((90 * pythonRound (q / 90)) % 360 : ℤ) : ℚ)
          ∧ |q - ((90 * pythonRound (q / 90) : ℤ) : ℚ)| ≤ 45) := by
  refine ⟨?_, ?_, ?_, ?_⟩
  · intro q
    rw [mkWebcam_orientation]
    exact normalizeOrientation_mem q
  · rw [mkWebcam_orientation]
    exact normalizeOrientation_450
  · intro k hk
    rw [mkWebcam_orientation, normalizeOrientation_intMul90, hk]
    norm_num
  · intro q hq
    rw [mkWebcam_orientation]
    exact normalizeOrientation_round q hq

/-- Witness for C6: an input equivalent to minus 90 degrees is stored as
270 degrees. -/
theorem mkWebcam_orientation_normalized_witness :
    (mkWebcam [] 0 640 480 1 "cam" ((90 * (-1 : ℤ) : ℤ) : ℚ)).orientation
      = 270 :=
  (mkWebcam_orientation_normalized [] 0 640 480 1 "cam").2.2.1 (-1)
    (by decide)

/-- C7: `get_resolution` returns the unrotated dimensions with the two
components swapped exactly when the stored orientation is 90 or 270;
concretely, a handle constructed with raw 640 by 480 and orientation 90
reports (480, 640) while its raw fields keep the unrotated values. -/
theorem resolution_swaps_on_rotation (w : WebcamState) :
    (get_resolution w =
      if w.orientation = 90 ∨ w.orientation = 270 then
        ((rawDims w).2, (rawDims w).1)
      else rawDims w)
    ∧ get_resolution (mkWebcam [] 0 640 480 1 "cam0" 90) = (480, 640)
    ∧ (mkWebcam [] 0 640 480 1 "cam0" 90).raw_width = 640
    ∧ (mkWebcam [] 0 640 480 1 "cam0" 90).raw_height = 480 := by
  refine ⟨?_, by decide, by decide, by decide⟩
  unfold get_resolution rawDims
  by_cases hcap : w.is_opened = false ∨ w.negotiated = none
  · rw [if_pos hcap, if_pos hcap]
  · rw [if_neg hcap, if_neg hcap]
    cases hn : w.negotiated with
    | none => exact absurd (Or.inr hn) hcap
    | some d => split_ifs with hor <;> rfl

/-- C8: on an open handle a failed frame read makes `get_frame` return
`none` while leaving the state untouched (still opened, capture not
released), so another call remains possible; a successful read returns the
raw frame rotated according to the normalized orientation (0 identity,
90 clockwise, 180 half-turn, 270 counter-clockwise). -/
theorem get_frame_failure_nonfatal (w : WebcamState)
    (h1 : w.is_opened = true) (h2 : w.negotiated ≠ none) :
    get_frame w none = (none, w)
    ∧ (∀ f : Frame, get_frame w (some f) = (some (apply_orientation w f), w))
    ∧ (get_frame w none).2.is_opened = true
    ∧ (get_frame w none).2.negotiated = w.negotiated
    ∧ (∀ f : Frame, w.orientation = 0 → apply_orientation w f = f)
    ∧ (∀ f : Frame, w.orientation = 90 → apply_orientation w f = rotate90cw f)
    ∧ (∀ f : Frame, w.orientation = 180 → apply_orientation w f = rotate180 f)
    ∧ (∀ f : Frame, w.orientation = 270 →
        apply_orientation w f = rotate90ccw f) := by
  have hcond : ¬(w.is_opened = false ∨ w.negotiated = none) := by
    rintro (hc | hc)
    · rw [h1] at hc; exact Bool.noConfusion hc
    · exact h2 hc
  refine ⟨?_, ?_, ?_, ?_, ?_, ?_, ?_, ?_⟩
  · unfold get_frame; rw [if_neg hcond]
  · intro f; unfold get_frame; rw [if_neg hcond]
  · unfold get_frame; rw [if_neg hcond]; exact h1
  · unfold get_frame; rw [if_neg hcond]
  · intro f h0; unfold apply_orientation; rw [if_pos h0]
  · intro f h90; unfold apply_orientation
    rw [if_neg (by rw [h90]; norm_num), if_pos h90]
  · intro f h180; unfold apply_orientation
    rw [if_neg (by rw [h180]; norm_num), if_neg (by rw [h180]; norm_num),
      if_pos h180]
  · intro f h270; unfold apply_orientation
    rw [if_neg (by rw [h270]; norm_num), if_neg (by rw [h270]; norm_num),
      if_neg (by rw [h270]; norm_num), if_pos h270]

/-- Witness for C8: on a concrete open handle, a failed read returns `none`
and leaves the handle state untouched. -/
theorem get_frame_failure_nonfatal_witness :
    get_frame wOpen none = (none, wOpen) :=
  (get_frame_failure_nonfatal wOpen (by decide) (by decide)).1

/-- C3: over one reconciliation pass, the persistence save operation runs
zero times when no entry changed and exactly once, with the full updated
entry set batched, when at least one entry was marked dirty; an entry whose
stored fingerprint resolves to its already-stored index contributes no
dirtiness. -/
theorem save_called_once_iff_dirty (env : List DeviceProbe)
    (devices : List DeviceEntry) :
    ((∀ e ∈ devices, entryChanged env e = false) →
      (load_cameras_from_config env (some devices)).saves = [])
    ∧ ((∃ e ∈ devices, entryChanged env e = true) →
      (load_cameras_from_config env (some devices)).saves =
        [devices.map (updateEntry env)])
    ∧ (∀ e : DeviceEntry, has_hardware_signature e = true →
        find_camera_by_signature env (e.hardware_signature.getD "") =
          some e.device_id →
        entryChanged env e = false) := by
  refine ⟨?_, ?_, ?_⟩
  · intro hall
    have hany : devices.any (entryChanged env) = false :=
      List.any_eq_false.mpr (fun e he => by simp [hall e he])
    unfold load_cameras_from_config
    dsimp only
    rw [foldl_processEntry_config_updated]
    simp [hany]
  · rintro ⟨e, he, hch⟩
    have hany : devices.any (entryChanged env) = true :=
      List.any_eq_true.mpr ⟨e, he, hch⟩
    unfold load_cameras_from_config
    dsimp only
    rw [foldl_processEntry_config_updated, foldl_processEntry_updated_devices]
    simp [hany]
  · intro e hs hfind
    unfold entryChanged load_camera_by_signature
    rw [if_pos hs, hfind]
    simp

/-- Witness for C3: a pass over one entry whose fingerprint resolves to its
stored index performs no save. -/
theorem save_called_once_iff_dirty_witness :
    (load_cameras_from_config [probeA] (some [entryClean])).saves = [] :=
  (save_called_once_iff_dirty [probeA] [entryClean]).1 (by decide)

/-- C4 counterexample: for a configured entry with no fingerprint whose
device is absent (the capture fails to open and no metadata is available),
the pass writes the EMPTY string as the entry's fingerprint — and still
marks the config dirty and saves once — so the claim that the entry always
ends with a non-empty fingerprint is false. -/
theorem generate_signature_empty_cex :
    (updateEntry [] entryNoSig).hardware_signature = some ""
    ∧ (load_cameras_from_config [] (some [entryNoSig])).saves =
        [[{ entryNoSig with hardware_signature := some "" }]]
    ∧ ¬ ∃ s : String, (updateEntry [] entryNoSig).hardware_signature = some s
        ∧ s ≠ "" := by
  refine ⟨by decide, by decide, ?_⟩
  rintro ⟨s, hs, hne⟩
  rw [show (updateEntry [] entryNoSig).hardware_signature = some ""
      from by decide] at hs
  exact hne (Option.some.inj hs).symm

/-- C4 (amended): for a config entry with absent or empty fingerprint, one
pass opens the capture primitive at the entry's configured index, derives a
fingerprint there, writes it into the entry and marks the config dirty,
triggering exactly one batched save; the written fingerprint is non-empty
provided the identification probe at that index opens successfully. -/
theorem generate_signature_bootstrap (env : List DeviceProbe)
    (devices : List DeviceEntry) (e : DeviceEntry) (he : e ∈ devices)
    (h1 : has_hardware_signature e = false)
    (h2 : (probeFor env e.device_id).opensOk = true) :
    updateEntry env e =
      { e with hardware_signature := some (derivedSignature env e.device_id) }
    ∧ derivedSignature env e.device_id ≠ ""
    ∧ entryChanged env e = true
    ∧ (∀ st : ReconState, (processEntry env st e).cameras =
        dictInsert st.cameras e.name
          (mkWebcam env e.device_id e.width e.height e.buffer_size e.name 0))
    ∧ (load_cameras_from_config env (some devices)).saves =
        [devices.map (updateEntry env)] := by
  have hb : ¬ has_hardware_signature e = true := by simp [h1]
  refine ⟨?_, ?_, ?_, ?_, ?_⟩
  · unfold updateEntry
    rw [if_neg hb]
    rfl
  · exact unique_signature_ne_empty_of_opensOk _ h2
  · unfold entryChanged
    rw [if_neg hb]
  · intro st
    unfold processEntry
    rw [if_neg hb]
    rfl
  · have hch : entryChanged env e = true := by
      unfold entryChanged
      rw [if_neg hb]
    have hany : devices.any (entryChanged env) = true :=
      List.any_eq_true.mpr ⟨e, he, hch⟩
    unfold load_cameras_from_config
    dsimp only
    rw [foldl_processEntry_config_updated, foldl_processEntry_updated_devices]
    simp [hany]

/-- Witness for C4: with the device present and opening, the derived
fingerprint written by the bootstrap pass is non-empty. -/
theorem generate_signature_bootstrap_witness :
    derivedSignature [probeOpen] entryNoSig.device_id ≠ "" :=
  (generate_signature_bootstrap [probeOpen] [entryNoSig] entryNoSig
    (by decide) (by decide) (by decide)).2.1

/-- C5: an entry with a non-empty stored fingerprint matching no live
device is skipped: no device index is fabricated, no capture is opened for
it, its entry is appended unchanged and contributes no dirtiness, and the
fold continues over the remaining entries from that state. -/
theorem unresolved_signature_skips_entry (env : List DeviceProbe)
    (st : ReconState) (e : DeviceEntry)
    (h1 : has_hardware_signature e = true)
    (h2 : find_camera_by_signature env (e.hardware_signature.getD "") =
      none) :
    processEntry env st e =
      { st with updated_devices := st.updated_devices ++ [e] }
    ∧ updateEntry env e = e
    ∧ entryChanged env e = false
    ∧ (∀ rest : List DeviceEntry,
        (e :: rest).foldl (processEntry env) st =
          rest.foldl (processEntry env)
            { st with updated_devices := st.updated_devices ++ [e] }) := by
  have hload : load_camera_by_signature env e = (e, false, none) := by
    unfold load_camera_by_signature
    rw [h2]
  have hmain : processEntry env st e =
      { st with updated_devices := st.updated_devices ++ [e] } := by
    unfold processEntry
    rw [if_pos h1]
    dsimp only
    rw [hload]
    simp
  refine ⟨hmain, ?_, ?_, ?_⟩
  · unfold updateEntry
    rw [if_pos h1, hload]
  · unfold entryChanged
    rw [if_pos h1, hload]
  · intro rest
    rw [List.foldl_cons, hmain]

/-- Witness for C5: processing a concrete entry whose fingerprint matches
nothing appends it unchanged and touches nothing else. -/
theorem unresolved_signature_skips_entry_witness :
    processEntry [] stEmpty entryGhost =
      { stEmpty with
          updated_devices := stEmpty.updated_devices ++ [entryGhost] } :=
  (unresolved_signature_skips_entry [] stEmpty entryGhost (by decide)
    (by decide)).1

/-- C9: when the configuration is unreadable or empty (the exception path),
reconciliation does not crash: it installs exactly one synthetic camera
under the key "default" with device index 0, so the camera map is
non-empty. -/
theorem config_fallback_default (env : List DeviceProbe) :
    (load_cameras_from_config env none).cameras =
      [("default", mkWebcam env 0 640 480 1 "default_camera" 0)]
    ∧ (load_cameras_from_config env none).cameras.length = 1
    ∧ (load_cameras_from_config env none).saves = []
    ∧ ∀ p ∈ (load_cameras_from_config env none).cameras,
        p.1 = "default" ∧ p.2.device_id = 0 := by
  refine ⟨rfl, rfl, rfl, ?_⟩
  intro p hp
  rw [show (load_cameras_from_config env none).cameras =
      [("default", mkWebcam env 0 640 480 1 "default_camera" 0)]
      from rfl, List.mem_singleton] at hp
  subst hp
  exact ⟨rfl, mkWebcam_device_id env 0 640 480 1 "default_camera" 0⟩

/-- Witness for C9: the single fallback camera entry is keyed "default" and
sits at device index 0. -/
theorem config_fallback_default_witness :
    ("default", mkWebcam [] 0 640 480 1 "default_camera" 0).1 = "default"
    ∧ ("default",
        mkWebcam [] 0 640 480 1 "default_camera" 0).2.device_id = 0 :=
  (config_fallback_default []).2.2.2
    ("default", mkWebcam [] 0 640 480 1 "default_camera" 0)
    (List.mem_singleton.mpr rfl)

end WebcamSpec
